import Mathlib

/-!
Formal model of the simplecoder agent core (agent loop, context window
manager, permission gate, tool dispatch, planner fallback), shallowly
embedded from the Python sources in src/simplecoder, together with proofs
of the specified behavioural properties.
-/

namespace SimpleCoder

/-- Conversation roles of the chat messages exchanged with the model. -/
inductive Role
  | system
  | user
  | assistant
  | tool
deriving DecidableEq

/-- A JSON scalar value, as json.loads produces for a tool-call argument. -/
inductive PyValue
  | str (s : String)
  | int (n : Int)
  | boolean (b : Bool)
  | null
deriving DecidableEq

/-- The value json.loads returns for a syntactically valid payload: either a
JSON object (a Python dict with string keys) or some other JSON value. -/
inductive PyLoaded
  | obj (fields : List (String × PyValue))
  | other (valueRepr : String)
deriving DecidableEq

/-- A tool-call argument payload (the raw text the model emitted), abstracted
by the outcome of json.loads on it: either the text is not valid JSON (loads
raises) or it parses to a value. -/
inductive ArgPayload
  | malformed (raw : String)
  | wellFormed (v : PyLoaded)
deriving DecidableEq

/-- A Python exception value. TypeError is distinguished because
tools.execute_tool handles it in its own except branch; every other
exception kind is otherError. -/
inductive PyExc
  | typeError (msg : String)
  | otherError (msg : String)
deriving DecidableEq

/-- Outcome of running a piece of Python code: a returned value, or a raised
exception propagating to the caller. -/
inductive PyResult (α : Type)
  | ok (val : α)
  | raised (exc : PyExc)
deriving DecidableEq

/-- The function part of a tool call in a model response
(tool_call.function in agent.py's _call_llm). -/
structure ToolCallFunction where
  name : String
  arguments : ArgPayload
deriving DecidableEq

/-- A tool-call request of a model response, as _call_llm rebuilds it:
an id, the literal type tag "function", and the function payload. -/
structure ToolCall where
  id : String
  callType : String
  function : ToolCallFunction
deriving DecidableEq

/-- A conversation message dict. content is None for the assistant messages
the agent appends when a tool is called; tool_calls and tool_call_id are
only populated on assistant-with-tool-call and tool messages respectively
(they default to empty/absent, matching dicts built without those keys). -/
structure Message where
  role : Role
  content : Option String
  tool_calls : List ToolCall := []
  tool_call_id : Option String := none
deriving DecidableEq

/-- A model response as _call_llm returns it: an optional text content and a
list of tool calls (empty when the model called no tool). -/
structure ModelResponse where
  content : Option String
  tool_calls : List ToolCall
deriving DecidableEq

/-- Python str() applied to an optional message content: None renders as the
four-character string "None". -/
def pyStr : Option String → String
  | none => "None"
  | some s => s

/-- ContextManager.estimate_tokens (context.py line 32): the sum over all
messages of len(str(msg.get("content", ""))), floor-divided by 4. -/
def estimate_tokens (messages : List Message) : Nat :=
  (messages.map fun m => (pyStr m.content).length).sum / 4

/-- ContextManager.should_compact (context.py line 44): true when the token
estimate exceeds int(max_tokens * 0.8), i.e. the floor of 0.8 * max_tokens. -/
def should_compact (maxTokens : Nat) (messages : List Message) : Bool :=
  decide (estimate_tokens messages > maxTokens * 4 / 5)

/-- Python slice l[-n:] (context.py line 78): the last n elements, except
that with n = 0 the slice degenerates to l[0:], the whole list. -/
def takeLast (n : Nat) (l : List Message) : List Message :=
  if n = 0 then l else l.drop (l.length - n)

/-- messages[0] when it has role system, else None (context.py line 68). -/
def systemMsg (messages : List Message) : Option Message :=
  match messages.head? with
  | some m => if m.role = Role.system then some m else none
  | none => none

/-- The first user message strictly after the head (context.py lines 71-75,
the loop over messages[1:]). -/
def firstUserMsg (messages : List Message) : Option Message :=
  (messages.drop 1).find? fun m => m.role = Role.user

/-- The [system_msg] part of the compacted list (context.py lines 82-83). -/
def sysPart (messages : List Message) : List Message :=
  match systemMsg messages with
  | some s => [s]
  | none => []

/-- The [first_user_msg] part of the compacted list, inserted only when it is
not already among the retained recent messages (context.py lines 84-85). -/
def userPart (keepLastN : Nat) (messages : List Message) : List Message :=
  match firstUserMsg messages with
  | some u => if u ∈ takeLast keepLastN messages then [] else [u]
  | none => []

/-- The rebuilt list of the compaction branch: system + first_user + recent
(context.py lines 80-86). -/
def compactCore (keepLastN : Nat) (messages : List Message) : List Message :=
  sysPart messages ++ userPart keepLastN messages ++ takeLast keepLastN messages

/-- ContextManager.compact_messages (context.py line 61): a no-op when the
list has at most keep_last_n + 1 messages, otherwise the rebuilt list. -/
def compact_messages (keepLastN : Nat) (messages : List Message) : List Message :=
  if messages.length ≤ keepLastN + 1 then messages else compactCore keepLastN messages

/-- The token estimate as the specification words it: the character count of
the message contents themselves, a null content contributing no characters,
floor-divided by 4. Stated for comparison with estimate_tokens. -/
def spec_estimate_tokens (messages : List Message) : Nat :=
  (messages.map fun m => (m.content.getD "").length).sum / 4

/-- The session-permission store of a PermissionManager: the
session_permissions dict mapping an operation kind to its remembered
decision. Insertion conses the new entry; lookupPerm reads the newest. -/
structure PermState where
  session_permissions : List (String × Bool)
deriving DecidableEq

/-- Dict lookup in session_permissions: the stored decision, if any. -/
def lookupPerm (perms : List (String × Bool)) (operation : String) : Option Bool :=
  (perms.find? fun e => e.1 = operation).map Prod.snd

/-- What one call to PermissionManager.request_permission did: the boolean it
returned, whether it put a synchronous question to the user, and the
manager's session store afterwards. -/
structure PermOutcome where
  granted : Bool
  prompted : Bool
  state : PermState
deriving DecidableEq

/-- PermissionManager.request_permission (permissions.py line 27). The two
interactive Confirm.ask answers are inputs: user_approves is the yes/no
answer to the permission question, user_remembers the answer to the
remember-for-session question (consumed only when the first was yes). -/
def request_permission (auto_approve : Bool) (st : PermState) (operation : String)
    (_filepath : Option String) (user_approves user_remembers : Bool) : PermOutcome :=
  if auto_approve then ⟨true, false, st⟩
  else
    match lookupPerm st.session_permissions operation with
    | some stored => ⟨stored, false, st⟩
    | none =>
      if user_approves then
        if user_remembers then ⟨true, true, ⟨(operation, true) :: st.session_permissions⟩⟩
        else ⟨true, true, st⟩
      else ⟨false, true, st⟩

/-- PermissionManager.reset_session_permissions (permissions.py line 68):
session_permissions.clear(). -/
def reset_session_permissions (_st : PermState) : PermState := ⟨[]⟩

/-- One interaction with a (non-auto-approve) PermissionManager during a
session: a permission request with the user's two answers, or a reset. -/
inductive PermEvent
  | request (operation : String) (filepath : Option String) (approved remember : Bool)
  | reset
deriving DecidableEq

/-- The session store after one event. -/
def applyEvent (st : PermState) : PermEvent → PermState
  | .request op fp a r => (request_permission false st op fp a r).state
  | .reset => reset_session_permissions st

/-- The session store after a sequence of interactions. -/
def runSession (st : PermState) (events : List PermEvent) : PermState :=
  events.foldl applyEvent st

/-- The stores request_permission can actually build: only true is ever
written into session_permissions (permissions.py line 63). -/
def GoodState (st : PermState) : Prop :=
  ∀ e ∈ st.session_permissions, e.2 = true

/-- A single quote, used by the Python f-string error literals. -/
def squote (s : String) : String := "'" ++ s ++ "'"

/-- The keys of TOOL_FUNCTIONS (tools.py line 359): the registered tools. -/
def toolNames : List String :=
  ["list_files", "read_file", "write_file", "search_files", "edit_file",
   "search_codebase", "search_web"]

/-- A Python callable's keyword-bindable parameters: the required ones and
the ones with a default. -/
structure ToolSig where
  required : List String
  optional : List String
deriving DecidableEq

/-- The Python signatures of the seven tool functions (their def lines in
tools.py). Note search_files(pattern, directory) has no default for
directory even though the declared schema marks only pattern required. -/
def toolSignature : String → ToolSig
  | "list_files" => ⟨[], ["directory"]⟩
  | "read_file" => ⟨["filepath"], []⟩
  | "write_file" => ⟨["filepath", "content"], []⟩
  | "search_files" => ⟨["pattern", "directory"], []⟩
  | "edit_file" => ⟨["filepath", "old_text", "new_text"], []⟩
  | "search_codebase" => ⟨["query"], ["max_results"]⟩
  | "search_web" => ⟨["query"], ["max_results"]⟩
  | _ => ⟨[], []⟩

/-- Whether a keyword argument dict carries a key. -/
def hasKey (fields : List (String × PyValue)) (k : String) : Bool :=
  fields.any fun e => e.1 = k

/-- Keyword binding of func(**fields) against a signature: the TypeError
detail CPython raises for the first missing required parameter or the first
unexpected keyword, or none when binding succeeds. -/
def bindCheck (sig : ToolSig) (fields : List (String × PyValue)) : Option String :=
  match sig.required.find? fun r => !(hasKey fields r) with
  | some r => some ("missing 1 required positional argument: " ++ squote r)
  | none =>
    match fields.find? fun e => !(sig.required.contains e.1 || sig.optional.contains e.1) with
    | some e => some ("got an unexpected keyword argument " ++ squote e.1)
    | none => none

/-- The TypeError detail with which func(**args) fails to bind a loaded
JSON payload for a registered tool, or none when binding succeeds: a
non-mapping value cannot be unpacked at all, and an object must pass
bindCheck against the tool's signature. -/
def bindFailure (name : String) : PyLoaded → Option String
  | .other r => some ("argument after ** must be a mapping, not " ++ r)
  | .obj fields =>
    match bindCheck (toolSignature name) fields with
    | some err => some (name ++ "() " ++ err)
    | none => none

/-- The behaviour of the seven tool function bodies (filesystem, RAG, web):
what func(name)(**fields) returns or raises once keyword binding succeeded.
Kept abstract: execute_tool's dispatch contract holds for any of them. -/
def ToolImpl : Type := String → List (String × PyValue) → PyResult String

/-- The Python call func(**tool_args) inside execute_tool's try block:
a non-mapping argument or a binding failure raises TypeError before the
body runs, otherwise the body executes. -/
def callToolFunction (impl : ToolImpl) (name : String) (args : PyLoaded) :
    PyResult String :=
  match args with
  | .other r => .raised (.typeError ("argument after ** must be a mapping, not " ++ r))
  | .obj fields =>
    match bindCheck (toolSignature name) fields with
    | some err => .raised (.typeError (name ++ "() " ++ err))
    | none => impl name fields

/-- tools.execute_tool (tools.py line 369). Every branch returns: an unknown
name yields an error string, a TypeError is converted in its own except
branch, and any other exception is converted by the catch-all; nothing
propagates to the caller, which the return type PyResult makes explicit. -/
def execute_tool (impl : ToolImpl) (tool_name : String) (tool_args : PyLoaded) :
    PyResult String :=
  if tool_name ∈ toolNames then
    match callToolFunction impl tool_name tool_args with
    | .ok s => .ok s
    | .raised (.typeError m) =>
      .ok ("Error: Invalid arguments for tool " ++ squote tool_name ++ ": " ++ m)
    | .raised (.otherError m) =>
      .ok ("Error executing tool " ++ squote tool_name ++ ": " ++ m)
  else .ok ("Error: Unknown tool " ++ squote tool_name)

/-- json.loads on a tool-call argument payload (agent.py line 199): raises
json.JSONDecodeError (a ValueError) on malformed text. -/
def json_loads : ArgPayload → PyResult PyLoaded
  | .malformed raw => .raised (.otherError ("Expecting value: " ++ raw))
  | .wellFormed v => .ok v

/-- Whether json.loads succeeds on the payload. -/
def loadsOk : ArgPayload → Bool
  | .malformed _ => false
  | .wellFormed _ => true

/-- Whether a response enters the tool branch and survives json.loads: it
has at least one tool call and the first one's payload is valid JSON. Only
the first call's payload matters; the loop drops the rest unparsed. -/
def dispatchable (r : ModelResponse) : Bool :=
  match r.tool_calls with
  | [] => false
  | tc :: _ => loadsOk tc.function.arguments

/-- Agent.SYSTEM_PROMPT (agent.py line 34). The Python triple-quoted
literal's 20-space indentation and blank-line layout are not reproduced;
no property below depends on the prompt text. -/
def SYSTEM_PROMPT : String :=
  "You are SimpleCoder, a helpful coding assistant that can help users with programming tasks.\n" ++
  "You have access to tools that let you interact with the filesystem:\n" ++
  "- list_files: See what files and directories exist\n" ++
  "- read_file: Read the contents of a file\n" ++
  "- write_file: Create or overwrite a file\n" ++
  "- edit_file: Make targeted edits to existing files\n" ++
  "- search_files: Find files matching a pattern\n" ++
  "- search_web: Search the internet for current information\n" ++
  "- search_codebase: SEMANTIC search - use this to find code by PURPOSE not filename\n" ++
  "IMPORTANT TOOL USAGE:\n" ++
  "- Use search_codebase when you need to find code by what it DOES\n" ++
  "- Use search_files when you need to find files by NAME or pattern\n" ++
  "- Use read_file when you know the exact file to read\n" ++
  "How to use these tools:\n" ++
  "1. When you need to do something, use a tool\n" ++
  "2. After using a tool, you'll see the result and can decide what to do next\n" ++
  "3. You can use multiple tools in sequence to complete complex tasks\n" ++
  "4. When you're done with the task, respond with your final answer (without calling any tools)\n" ++
  "IMPORTANT:\n" ++
  "- Always read files before editing them to understand their current content\n" ++
  "- Use list_files to explore the directory structure first\n" ++
  "- Break complex tasks into smaller steps\n" ++
  "- Be thorough and check your work\n" ++
  "When you're completely done with the task, produce a final clear and consise response summarizing what you did.\n"

/-- The two-message conversation _execute_subtask starts from
(agent.py lines 173-182): the system prompt, then the user task. -/
def initialMessages (task : String) : List Message :=
  [⟨Role.system, some SYSTEM_PROMPT, [], none⟩, ⟨Role.user, some task, [], none⟩]

/-- The assistant message appended after a tool call (agent.py lines
212-216): content None, carrying the single executed call. -/
def assistantToolMsg (tc : ToolCall) : Message := ⟨Role.assistant, none, [tc], none⟩

/-- The tool message appended after a tool call (agent.py lines 217-221):
the textual result, tagged with the call id. -/
def toolResultMsg (result callId : String) : Message :=
  ⟨Role.tool, some result, [], some callId⟩

/-- The fixed soft-failure string of agent.py line 233. -/
def exhaustionMessage : String := "Reached maximum iterations for this subtask."

/-- The compaction step of each iteration (agent.py lines 190-191), with the
agent's fixed configuration ContextManager(max_tokens=128000, keep_last_n=10)
from agent.py line 97. -/
def compactIfNeeded (messages : List Message) : List Message :=
  if should_compact 128000 messages then compact_messages 10 messages else messages

/-- The per-subtask loop progress: the conversation plus how many model
calls and tool dispatches have happened. -/
structure LoopState where
  messages : List Message
  modelCalls : Nat
  dispatches : Nat
deriving DecidableEq

/-- The ReAct loop of Agent._execute_subtask (agent.py lines 185-233),
driven by a scripted model llm mapping the 0-based iteration index to the
response _call_llm returns. Each iteration compacts if needed, calls the
model, and either returns the tool-free response's content, or parses the
first tool call's payload with json.loads (which raises out of the loop on
malformed JSON), dispatches it, appends the two messages and continues;
exhausted fuel returns the fixed exhaustion string. -/
def reactLoop (impl : ToolImpl) (llm : Nat → ModelResponse) :
    Nat → LoopState → PyResult (Option String × LoopState)
  | 0, st => .ok (some exhaustionMessage, st)
  | fuel + 1, st =>
    match (llm st.modelCalls).tool_calls with
    | [] =>
      .ok ((llm st.modelCalls).content,
        ⟨compactIfNeeded st.messages, st.modelCalls + 1, st.dispatches⟩)
    | tc :: _ =>
      match json_loads tc.function.arguments with
      | .raised e => .raised e
      | .ok largs =>
        match execute_tool impl tc.function.name largs with
        | .raised e => .raised e
        | .ok toolResult =>
          reactLoop impl llm fuel
            ⟨compactIfNeeded st.messages ++
              [assistantToolMsg tc, toolResultMsg toolResult tc.id],
             st.modelCalls + 1, st.dispatches + 1⟩

/-- Agent._execute_subtask (agent.py line 155) under a scripted model: run
the ReAct loop for at most max_iterations iterations from the fresh
two-message conversation. -/
def execute_subtask (impl : ToolImpl) (llm : Nat → ModelResponse)
    (max_iterations : Nat) (task : String) : PyResult (Option String × LoopState) :=
  reactLoop impl llm max_iterations ⟨initialMessages task, 0, 0⟩

/-- A filesystem: the written files, newest entry first; reads take the most
recent entry for a path. Paths are modelled as already resolved, and
directories (Path.mkdir) are not modelled; no claim depends on them. -/
def FS : Type := List (String × String)

/-- Path.read_text for a path, None when the file does not exist. -/
def fsRead (fs : FS) (p : String) : Option String :=
  (fs.find? fun e => e.1 = p).map Prod.snd

/-- Path.write_text: create or overwrite. -/
def fsWrite (fs : FS) (p c : String) : FS := (p, c) :: fs

/-- Python s.replace(old, new): all non-overlapping occurrences, left to
right; an empty old inserts new at every character boundary. -/
def pyReplace (s old new : String) : String :=
  if old = "" then
    if s = "" then new
    else new ++ String.intercalate new (s.data.map fun c => String.singleton c) ++ new
  else String.intercalate new (s.splitOn old)

/-- Python (needle in haystack) on strings: substring containment. -/
def pyIn (needle haystack : String) : Bool := decide (needle.data <:+: haystack.data)

/-- The module-level _permission_manager as the tool functions see it: the
boolean request_permission returns for an operation kind and path. The
prompting and memoization behind that boolean are modelled by
request_permission above. -/
structure PermGate where
  request : String → Option String → Bool

/-- The try-block body of tools.write_file (tools.py lines 102-108). -/
def writeFileBody (fs : FS) (filepath content : String) : String × FS :=
  ("Wrote " ++ toString content.length ++ " characters to " ++ squote filepath,
   fsWrite fs filepath content)

/-- tools.write_file (tools.py line 93): when a permission manager is
installed, consult it first and short-circuit on denial before touching the
filesystem; with no manager installed the body runs unchecked. -/
def write_file (gate : Option PermGate) (fs : FS) (filepath content : String) :
    String × FS :=
  match gate with
  | some g =>
    if !(g.request "write_file" (some filepath)) then
      ("Permission denied: Cannot write to " ++ squote filepath, fs)
    else writeFileBody fs filepath content
  | none => writeFileBody fs filepath content

/-- The try-block body of tools.edit_file (tools.py lines 143-157). -/
def editFileBody (fs : FS) (filepath old_text new_text : String) : String × FS :=
  match fsRead fs filepath with
  | none => ("Error: File " ++ squote filepath ++ " does not exist", fs)
  | some content =>
    if !(pyIn old_text content) then
      ("Error: Could not find the text to replace in " ++ squote filepath, fs)
    else
      ("Successfully edited " ++ squote filepath,
       fsWrite fs filepath (pyReplace content old_text new_text))

/-- tools.edit_file (tools.py line 134): permission gate first, then the
exists / contains checks and the replacement write. -/
def edit_file (gate : Option PermGate) (fs : FS) (filepath old_text new_text : String) :
    String × FS :=
  match gate with
  | some g =>
    if !(g.request "edit_file" (some filepath)) then
      ("Permission denied: Cannot edit " ++ squote filepath, fs)
    else editFileBody fs filepath old_text new_text
  | none => editFileBody fs filepath old_text new_text

/-- A planner subtask record (planner.py lines 85-89): sequential id,
description (any JSON value the parsed array held), and status. -/
structure Subtask where
  id : Nat
  description : PyValue
  status : String
deriving DecidableEq

/-- The planner's single model call, abstracted by what create_plan's try
block sees: the completion raised (transport error), or returned a message
whose content is None or a text. -/
inductive PlannerModelResult
  | transportError (msg : String)
  | content (text : Option String)
deriving DecidableEq

/-- The fence-stripping of planner.py lines 72-78: strip, take the part
between the first pair of triple backticks when present, and drop a leading
"json" tag. -/
def extract_json_text (t : String) : String :=
  let stripped := t.trim
  if pyIn "```" stripped then
    let mid := (stripped.splitOn "```").getD 1 ""
    if mid.startsWith "json" then mid.drop 4 else mid
  else stripped

/-- The try-block of TaskPlanner.create_plan up to json.loads: a transport
error propagates, a None content makes .strip() raise AttributeError, and
otherwise the stripped text goes to json.loads (the abstract loads). -/
def planParse (loads : String → PyResult (List PyValue)) :
    PlannerModelResult → PyResult (List PyValue)
  | .transportError m => .raised (.otherError m)
  | .content none => .raised (.otherError "AttributeError: NoneType object has no attribute strip")
  | .content (some t) => loads (extract_json_text t)

/-- TaskPlanner.create_plan (planner.py line 37): number the parsed subtasks
from 1 with status pending; any exception in the try block falls back to the
single-element plan holding the original task verbatim (lines 101-108). The
except-branch makes the function total: create_plan never raises. -/
def create_plan (loads : String → PyResult (List PyValue))
    (modelResult : PlannerModelResult) (task : String) : List Subtask :=
  match planParse loads modelResult with
  | .ok subtasks => subtasks.enum.map fun e => ⟨e.1 + 1, e.2, "pending"⟩
  | .raised _ => [⟨1, .str task, "pending"⟩]

/-! Concrete instances used below to evaluate the definitions. -/

/-- A conversation with a leading system message and two content-less
assistant messages, as the agent produces after two tool calls. -/
def c3ex : List Message :=
  [⟨Role.system, some "1234567890123456", [], none⟩,
   ⟨Role.assistant, none, [], none⟩,
   ⟨Role.assistant, none, [], none⟩]

/-- A one-message system conversation. -/
def c3w : List Message := [⟨Role.system, some "abcd", [], none⟩]

/-- system, two assistant messages, then the only user message. -/
def c4ex : List Message :=
  [⟨Role.system, some "s", [], none⟩,
   ⟨Role.assistant, some "a1", [], none⟩,
   ⟨Role.assistant, some "a2", [], none⟩,
   ⟨Role.user, some "u", [], none⟩]

/-- The head system message of c4w. -/
def c4wsys : Message := ⟨Role.system, some "s", [], none⟩

/-- The first user message of c4w. -/
def c4wu : Message := ⟨Role.user, some "u", [], none⟩

/-- A compactable conversation whose first user message falls outside the
recent tail. -/
def c4w : List Message :=
  [c4wsys, c4wu,
   ⟨Role.assistant, some "a1", [], none⟩,
   ⟨Role.assistant, some "a2", [], none⟩,
   ⟨Role.assistant, some "a3", [], none⟩]

/-- A three-message conversation: system, then two user messages. -/
def c5ex : List Message :=
  [⟨Role.system, some "s", [], none⟩,
   ⟨Role.user, some "u", [], none⟩,
   ⟨Role.user, some "v", [], none⟩]

/-- A tool implementation that always returns a fixed result. -/
def implZero : ToolImpl := fun _ _ => .ok "ok"

/-- A tool implementation whose body raises. -/
def implBoom : ToolImpl := fun _ _ => .raised (.otherError "boom")

/-- A scripted model: a list_files call on iteration 1, then a tool-free
answer. -/
def llmC1w : Nat → ModelResponse := fun n =>
  match n with
  | 0 => ⟨none, [⟨"call_1", "function", ⟨"list_files", .wellFormed (.obj [])⟩⟩]⟩
  | _ => ⟨some "All done.", []⟩

/-- A scripted model whose first tool call carries a payload that is not
valid JSON, followed by a tool-free answer. -/
def llmC1bad : Nat → ModelResponse := fun n =>
  match n with
  | 0 => ⟨none, [⟨"call_1", "function", ⟨"write_file", .malformed "not valid json"⟩⟩]⟩
  | _ => ⟨some "done", []⟩

/-- A scripted model that always requests edit_file with a payload that is
not valid JSON. -/
def llmC2bad : Nat → ModelResponse := fun _ =>
  ⟨none, [⟨"call_9", "function", ⟨"edit_file", .malformed "oops not json"⟩⟩]⟩

/-- A write_file call whose JSON-object payload is missing the required
content argument. -/
def tcC2w : ToolCall :=
  ⟨"call_2", "function", ⟨"write_file", .wellFormed (.obj [("filepath", .str "a.txt")])⟩⟩

/-- A scripted model that always requests tcC2w. -/
def llmC2w : Nat → ModelResponse := fun _ => ⟨none, [tcC2w]⟩

/-- A read_file call whose payload is valid JSON but not an object
(a JSON array, which json.loads returns as a Python list). -/
def tcC2arr : ToolCall :=
  ⟨"call_3", "function", ⟨"read_file", .wellFormed (.other "list")⟩⟩

/-- A scripted model that always requests tcC2arr. -/
def llmC2arr : Nat → ModelResponse := fun _ => ⟨none, [tcC2arr]⟩

/-- A permission gate that denies everything. -/
def denyGate : PermGate := ⟨fun _ _ => false⟩

/-- A json.loads oracle that always fails to parse. -/
def loadsFail : String → PyResult (List PyValue) :=
  fun _ => .raised (.otherError "Expecting value: line 1 column 1")

/-- A small filesystem with one file. -/
def fsC10 : FS := [("m.py", "hello world")]

/-! Helper lemmas about the context window manager. -/

theorem compact_noop {n : Nat} {l : List Message} (h : l.length ≤ n + 1) :
    compact_messages n l = l := by
  simp [compact_messages, h]

theorem compact_eq_core {n : Nat} {l : List Message} (h : ¬ l.length ≤ n + 1) :
    compact_messages n l = compactCore n l := by
  simp [compact_messages, h]

theorem systemMsg_eq_some {l : List Message} {s : Message} (h : systemMsg l = some s) :
    l.head? = some s ∧ s.role = Role.system := by
  unfold systemMsg at h
  cases hh : l.head? with
  | none => rw [hh] at h; simp at h
  | some m =>
    rw [hh] at h
    by_cases hr : m.role = Role.system
    · simp only [hr, if_pos] at h
      have hm : m = s := by simpa using h
      subst hm
      exact ⟨rfl, hr⟩
    · simp [hr] at h

theorem systemMsg_cons {s : Message} (hs : s.role = Role.system) (l : List Message) :
    systemMsg (s :: l) = some s := by
  simp [systemMsg, hs]

theorem firstUserMsg_role {l : List Message} {u : Message} (h : firstUserMsg l = some u) :
    u.role = Role.user := by
  have := List.find?_some h
  simpa using this

theorem firstUserMsg_mem_tail {l : List Message} {u : Message}
    (h : firstUserMsg l = some u) : u ∈ l.drop 1 :=
  List.mem_of_find?_eq_some h

theorem firstUserMsg_cons_cons {s u : Message} (hu : u.role = Role.user)
    (l : List Message) : firstUserMsg (s :: u :: l) = some u := by
  simp [firstUserMsg, List.find?_cons, hu]

theorem drop_subset_drop (l : List Message) {i j : Nat} (h : i ≤ j) :
    l.drop j ⊆ l.drop i := by
  intro a ha
  have hd : (l.drop i).drop (j - i) = l.drop j := by
    rw [List.drop_drop]; congr 1; omega
  rw [← hd] at ha
  exact List.mem_of_mem_drop ha

theorem mem_takeLast_of_short {n : Nat} {l : List Message} {u : Message}
    (hlen : l.length ≤ n + 1) (hu : u ∈ l.drop 1) : u ∈ takeLast n l := by
  unfold takeLast
  by_cases hn : n = 0
  · rw [if_pos hn]; exact List.mem_of_mem_drop hu
  · rw [if_neg hn]
    exact drop_subset_drop l (by omega) hu

theorem length_takeLast {n : Nat} {l : List Message} (hn : n ≠ 0) (h : n ≤ l.length) :
    (takeLast n l).length = n := by
  unfold takeLast
  rw [if_neg hn, List.length_drop]
  omega

theorem takeLast_cons_cons {n : Nat} (hn : n ≠ 0) (a b : Message) {l : List Message}
    (hl : l.length = n) : takeLast n (a :: b :: l) = l := by
  unfold takeLast
  rw [if_neg hn]
  have h2 : (a :: b :: l).length - n = 2 := by
    simp only [List.length_cons, hl]; omega
  rw [h2]
  rfl

/-- C3, claim as frozen, refuted: should_compact can hold although the
character count of the actual message contents, divided by 4, does not
exceed 80 percent of max_tokens — estimate_tokens renders a null content
as the 4-character string "None". Here max_tokens = 5 (80 percent = 4
tokens), the contents hold 16 characters (4 tokens), yet should_compact
is true because the two null contents are counted as 8 extra characters. -/
theorem claim3_counterexample :
    c3ex.head?.map Message.role = some Role.system ∧
    should_compact 5 c3ex = true ∧
    ¬ 5 * spec_estimate_tokens c3ex > 4 * 5 := by
  refine ⟨rfl, rfl, by decide⟩

/-- C3 (amended): for conversations with a leading system message,
should_compact is true iff estimate_tokens exceeds 0.8 * max_tokens
(stated exactly as 5 * estimate > 4 * max), where estimate_tokens is the
floor of the total character count of the Python str() renderings of the
message contents (a null content counting as the 4 characters of "None")
divided by 4. -/
theorem claim3_should_compact_threshold (maxTokens : Nat) (messages : List Message)
    (hhead : messages.head?.map Message.role = some Role.system) :
    (should_compact maxTokens messages = true ↔
      5 * estimate_tokens messages > 4 * maxTokens) ∧
    estimate_tokens messages =
      (messages.map fun m => (pyStr m.content).length).sum / 4 := by
  refine ⟨?_, rfl⟩
  have hdiv : maxTokens * 4 / 5 < estimate_tokens messages ↔
      maxTokens * 4 < estimate_tokens messages * 5 :=
    Nat.div_lt_iff_lt_mul (by omega)
  constructor
  · intro h
    have := of_decide_eq_true h
    have := hdiv.mp this
    omega
  · intro h
    apply decide_eq_true
    show maxTokens * 4 / 5 < estimate_tokens messages
    exact hdiv.mpr (by omega)

/-- C3 witness: the amended threshold equivalence evaluated on a concrete
one-message system conversation with max_tokens = 10. -/
theorem claim3_witness :
    (should_compact 10 c3w = true ↔ 5 * estimate_tokens c3w > 4 * 10) ∧
    estimate_tokens c3w = (c3w.map fun m => (pyStr m.content).length).sum / 4 :=
  claim3_should_compact_threshold 10 c3w (by decide)

/-- C4, claim as frozen, refuted: with keep_last_n = 2, compacting the list
system, assistant, assistant, user keeps the system message first but puts
an assistant message (the head of the retained tail) right after it: the
first user message is already inside the tail, so it is not re-inserted. -/
theorem claim4_counterexample :
    c4ex.head?.map Message.role = some Role.system ∧
    ((compact_messages 2 c4ex)[1]?).map Message.role = some Role.assistant ∧
    ¬ ((compact_messages 2 c4ex)[1]?).map Message.role = some Role.user := by
  refine ⟨rfl, by decide, by decide⟩

/-- C4 (amended): whenever the original first message has role system it
stays first in the result of compact_messages; and when additionally the
earliest user message after it does not already occur among the retained
last keep_last_n messages, that user message stands immediately after the
system message in the result. -/
theorem claim4_compaction_structure (keepLastN : Nat) (messages : List Message)
    (s : Message) (hhead : messages.head? = some s) (hs : s.role = Role.system) :
    (compact_messages keepLastN messages).head? = some s ∧
    ∀ u, firstUserMsg messages = some u → u ∉ takeLast keepLastN messages →
      (compact_messages keepLastN messages)[1]? = some u ∧ u.role = Role.user := by
  by_cases hlen : messages.length ≤ keepLastN + 1
  · rw [compact_noop hlen]
    refine ⟨hhead, ?_⟩
    intro u hu hmem
    exact absurd (mem_takeLast_of_short hlen (firstUserMsg_mem_tail hu)) hmem
  · rw [compact_eq_core hlen]
    have hsys : systemMsg messages = some s := by
      simp [systemMsg, hhead, hs]
    constructor
    · simp [compactCore, sysPart, hsys]
    · intro u hu hmem
      refine ⟨?_, firstUserMsg_role hu⟩
      simp [compactCore, sysPart, userPart, hsys, hu, hmem]

/-- C4 witness: the amended statement evaluated with keep_last_n = 1 on a
five-message conversation whose first user message is outside the tail. -/
theorem claim4_witness :
    (compact_messages 1 c4w).head? = some c4wsys ∧
    (compact_messages 1 c4w)[1]? = some c4wu ∧ c4wu.role = Role.user := by
  have h := claim4_compaction_structure 1 c4w c4wsys (by decide) (by decide)
  exact ⟨h.1, h.2 c4wu (by decide) (by decide)⟩

/-- C5, claim as frozen, refuted: with keep_last_n = 0 compact_messages is
not idempotent on any list longer than one message, because the Python
slice messages[-0:] is the whole list, so each application prepends the
system message again: here one application gives 4 messages and a second
gives 5. -/
theorem claim5_counterexample :
    compact_messages 0 (compact_messages 0 c5ex) ≠ compact_messages 0 c5ex := by
  decide

/-- C5 (amended): for every keep_last_n of at least 1, compact_messages is
idempotent on every message list; and for every keep_last_n, a list of
length at most keep_last_n + 1 is returned unchanged. -/
theorem claim5_compaction_idempotent (keepLastN : Nat) (messages : List Message) :
    (1 ≤ keepLastN →
      compact_messages keepLastN (compact_messages keepLastN messages) =
        compact_messages keepLastN messages) ∧
    (messages.length ≤ keepLastN + 1 → compact_messages keepLastN messages = messages) := by
  refine ⟨?_, fun h => compact_noop h⟩
  intro hn
  by_cases hlen : messages.length ≤ keepLastN + 1
  · rw [compact_noop hlen, compact_noop hlen]
  · have hne : keepLastN ≠ 0 := by omega
    have hlenr : (takeLast keepLastN messages).length = keepLastN :=
      length_takeLast hne (by omega)
    rw [compact_eq_core hlen]
    unfold compactCore
    cases hsys : systemMsg messages with
    | none =>
      cases husr : firstUserMsg messages with
      | none =>
        simp only [sysPart, userPart, hsys, husr, List.nil_append]
        exact compact_noop (by omega)
      | some u =>
        by_cases hmem : u ∈ takeLast keepLastN messages
        · simp only [sysPart, userPart, hsys, husr, if_pos hmem, List.nil_append]
          exact compact_noop (by omega)
        · simp only [sysPart, userPart, hsys, husr, if_neg hmem, List.nil_append,
            List.singleton_append]
          exact compact_noop (by simp [hlenr])
    | some s =>
      have hrole : s.role = Role.system := (systemMsg_eq_some hsys).2
      cases husr : firstUserMsg messages with
      | none =>
        simp only [sysPart, userPart, hsys, husr, List.append_nil, List.singleton_append]
        exact compact_noop (by simp [hlenr])
      | some u =>
        have hurole : u.role = Role.user := firstUserMsg_role husr
        by_cases hmem : u ∈ takeLast keepLastN messages
        · simp only [sysPart, userPart, hsys, husr, if_pos hmem, List.singleton_append,
            List.nil_append, List.append_nil]
          exact compact_noop (by simp [hlenr])
        · simp only [sysPart, userPart, hsys, husr, if_neg hmem, List.singleton_append,
            List.nil_append]
          -- the only genuinely recompacted case: the result has keepLastN + 2 messages
          show compact_messages keepLastN (s :: u :: takeLast keepLastN messages) =
            s :: u :: takeLast keepLastN messages
          have hlen2 : (s :: u :: takeLast keepLastN messages).length = keepLastN + 2 := by
            simp [hlenr]
          rw [compact_eq_core (by omega)]
          simp [compactCore, sysPart, userPart, systemMsg_cons hrole,
            firstUserMsg_cons_cons hurole, takeLast_cons_cons hne s u hlenr, hmem]

/-- C5 witness: idempotence evaluated with keep_last_n = 1 on a
three-message list that compaction genuinely rewrites. -/
theorem claim5_witness :
    compact_messages 1 (compact_messages 1 c5ex) = compact_messages 1 c5ex :=
  (claim5_compaction_idempotent 1 c5ex).1 (by decide)

/-! Helper lemmas about the permission gate. -/

theorem lookupPerm_cons (perms : List (String × Bool)) (op op' : String) (b : Bool) :
    lookupPerm ((op', b) :: perms) op =
      if op' = op then some b else lookupPerm perms op := by
  by_cases h : op' = op <;> simp [lookupPerm, List.find?_cons, h]

theorem request_hit {st : PermState} {op : String} {fp : Option String}
    {a r : Bool} (h : lookupPerm st.session_permissions op = some true) :
    request_permission false st op fp a r = ⟨true, false, st⟩ := by
  simp [request_permission, h]

theorem request_prompts {st : PermState} {op : String}
    (h : lookupPerm st.session_permissions op = none) (fp : Option String) (a r : Bool) :
    (request_permission false st op fp a r).prompted = true := by
  cases a <;> cases r <;> simp [request_permission, h]

theorem lookup_good {st : PermState} {op : String} {b : Bool} (hG : GoodState st)
    (h : lookupPerm st.session_permissions op = some b) : b = true := by
  unfold lookupPerm at h
  cases hf : st.session_permissions.find? fun e => e.1 = op with
  | none => rw [hf] at h; cases h
  | some e =>
    rw [hf] at h
    injection h with h
    rw [← h]
    exact hG e (List.mem_of_find?_eq_some hf)

theorem request_preserves_lookup {st : PermState} {op : String}
    (h : lookupPerm st.session_permissions op = some true)
    (op' : String) (fp : Option String) (a r : Bool) :
    lookupPerm (request_permission false st op' fp a r).state.session_permissions op =
      some true := by
  unfold request_permission
  simp only [Bool.false_eq_true, if_false]
  cases hl : lookupPerm st.session_permissions op' with
  | some b => exact h
  | none =>
    cases a with
    | false => exact h
    | true =>
      cases r with
      | false => exact h
      | true =>
        show lookupPerm ((op', true) :: st.session_permissions) op = some true
        rw [lookupPerm_cons]
        by_cases hop : op' = op <;> simp [hop, h]

theorem lookupPerm_persists (op : String) :
    ∀ (events : List PermEvent) (st : PermState),
      lookupPerm st.session_permissions op = some true →
      PermEvent.reset ∉ events →
      lookupPerm (runSession st events).session_permissions op = some true := by
  intro events
  induction events with
  | nil => intro st h _; exact h
  | cons e rest ih =>
    intro st h hne
    have hner : PermEvent.reset ∉ rest := fun hm => hne (List.mem_cons_of_mem _ hm)
    cases e with
    | reset => exact absurd (List.mem_cons_self _ _) hne
    | request op' fp a r =>
      exact ih (applyEvent st (.request op' fp a r))
        (request_preserves_lookup h op' fp a r) hner

theorem grant_then_lookup {st : PermState} {fp : Option String}
    (h : (request_permission false st "write_file" fp true true).granted = true) :
    lookupPerm
      (request_permission false st "write_file" fp true true).state.session_permissions
      "write_file" = some true := by
  cases hl : lookupPerm st.session_permissions "write_file" with
  | some b =>
    have hb : b = true := by
      unfold request_permission at h
      simp [hl] at h
      exact h
    subst hb
    rw [request_hit hl]
    exact hl
  | none =>
    unfold request_permission
    simp only [Bool.false_eq_true, if_false, hl]
    simp [lookupPerm_cons]

theorem request_denied {st : PermState} {op : String} {fp : Option String}
    {a r : Bool} (hG : GoodState st)
    (h : (request_permission false st op fp a r).granted = false) :
    lookupPerm st.session_permissions op = none ∧
      request_permission false st op fp a r = ⟨false, true, st⟩ := by
  cases hl : lookupPerm st.session_permissions op with
  | some b =>
    have hb := lookup_good hG hl
    subst hb
    rw [request_hit hl] at h
    cases h
  | none =>
    cases a with
    | false => exact ⟨rfl, by simp [request_permission, hl]⟩
    | true =>
      exfalso
      cases r <;> simp [request_permission, hl] at h

/-- C6: for a gate not in auto-approve mode: once a request_permission call
for write_file returns true with the remember option accepted, every later
call for write_file in the same session (any sequence of further requests,
no reset) returns true without prompting and without changing the store,
for every path; a denied call (from any store request_permission can build)
prompted, is not memoized — the store is unchanged and any retry for the
same operation prompts again; and after reset_session_permissions every
operation's next call prompts. -/
theorem claim6_permission_gate (st : PermState) (fp : Option String) :
    ((request_permission false st "write_file" fp true true).granted = true →
      ∀ events, PermEvent.reset ∉ events → ∀ fp' a r,
        request_permission false
            (runSession (request_permission false st "write_file" fp true true).state events)
            "write_file" fp' a r =
          ⟨true, false,
            runSession (request_permission false st "write_file" fp true true).state events⟩) ∧
    (∀ op fp₂ a₂ r₂, GoodState st →
      (request_permission false st op fp₂ a₂ r₂).granted = false →
        (request_permission false st op fp₂ a₂ r₂).prompted = true ∧
        (request_permission false st op fp₂ a₂ r₂).state = st ∧
        ∀ fp₃ a₃ r₃, (request_permission false st op fp₃ a₃ r₃).prompted = true) ∧
    (∀ op fp₄ a₄ r₄,
      (request_permission false (reset_session_permissions st) op fp₄ a₄ r₄).prompted = true) := by
  refine ⟨?_, ?_, ?_⟩
  · intro hg events hne fp' a r
    exact request_hit (lookupPerm_persists "write_file" events _ (grant_then_lookup hg) hne)
  · intro op fp₂ a₂ r₂ hG hd
    obtain ⟨hnone, heq⟩ := request_denied hG hd
    rw [heq]
    exact ⟨rfl, rfl, fun fp₃ a₃ r₃ => request_prompts hnone fp₃ a₃ r₃⟩
  · intro op fp₄ a₄ r₄
    apply request_prompts
    simp [reset_session_permissions, lookupPerm]

/-- C6 witness: from an empty store, grant write_file with remember; after a
further (unremembered) edit_file interaction, a write_file request for a
different path is granted without prompting and without a store change. -/
theorem claim6_witness :
    request_permission false
        (runSession (request_permission false ⟨[]⟩ "write_file" (some "main.py") true true).state
          [PermEvent.request "edit_file" none true false])
        "write_file" (some "other.py") false false =
      ⟨true, false,
        runSession (request_permission false ⟨[]⟩ "write_file" (some "main.py") true true).state
          [PermEvent.request "edit_file" none true false]⟩ :=
  (claim6_permission_gate ⟨[]⟩ (some "main.py")).1 (by decide)
    [PermEvent.request "edit_file" none true false] (by decide)
    (some "other.py") false false

/-! Tool dispatch, the gated filesystem tools, and the planner fallback. -/

theorem execute_tool_isOk (impl : ToolImpl) (name : String) (args : PyLoaded) :
    ∃ s, execute_tool impl name args = .ok s := by
  unfold execute_tool
  by_cases h : name ∈ toolNames
  · rw [if_pos h]
    cases hc : callToolFunction impl name args with
    | ok s => exact ⟨s, rfl⟩
    | raised e =>
      cases e with
      | typeError m => exact ⟨_, rfl⟩
      | otherError m => exact ⟨_, rfl⟩
  · rw [if_neg h]
    exact ⟨_, rfl⟩

theorem json_loads_ok {p : ArgPayload} (h : loadsOk p = true) :
    ∃ v, json_loads p = .ok v := by
  cases p with
  | malformed raw => simp [loadsOk] at h
  | wellFormed v => exact ⟨v, rfl⟩

/-- C7: execute_tool never raises to its caller — every call returns an ok
string. An unknown tool name returns the error string containing that name;
a registered tool whose JSON-object arguments fail keyword binding returns
the invalid-arguments error string naming the tool and the mismatch; and an
exception raised by the underlying tool body, TypeError or otherwise, is
caught and converted to an error string naming the tool. -/
theorem claim7_execute_tool_no_raise (impl : ToolImpl) (tool_name : String)
    (tool_args : PyLoaded) :
    (∃ s, execute_tool impl tool_name tool_args = .ok s) ∧
    (tool_name ∉ toolNames →
      execute_tool impl tool_name tool_args =
        .ok ("Error: Unknown tool " ++ squote tool_name)) ∧
    (∀ fields err, tool_name ∈ toolNames → tool_args = .obj fields →
      bindCheck (toolSignature tool_name) fields = some err →
      execute_tool impl tool_name tool_args =
        .ok ("Error: Invalid arguments for tool " ++ squote tool_name ++ ": " ++
          (tool_name ++ "() " ++ err))) ∧
    (∀ fields m, tool_name ∈ toolNames → tool_args = .obj fields →
      bindCheck (toolSignature tool_name) fields = none →
      impl tool_name fields = .raised (.otherError m) →
      execute_tool impl tool_name tool_args =
        .ok ("Error executing tool " ++ squote tool_name ++ ": " ++ m)) ∧
    (∀ fields m, tool_name ∈ toolNames → tool_args = .obj fields →
      bindCheck (toolSignature tool_name) fields = none →
      impl tool_name fields = .raised (.typeError m) →
      execute_tool impl tool_name tool_args =
        .ok ("Error: Invalid arguments for tool " ++ squote tool_name ++ ": " ++ m)) := by
  refine ⟨execute_tool_isOk impl tool_name tool_args, ?_, ?_, ?_, ?_⟩
  · intro h
    simp [execute_tool, h]
  · intro fields err hmem hargs hbind
    subst hargs
    simp [execute_tool, hmem, callToolFunction, hbind]
  · intro fields m hmem hargs hbind himpl
    subst hargs
    simp [execute_tool, hmem, callToolFunction, hbind, himpl]
  · intro fields m hmem hargs hbind himpl
    subst hargs
    simp [execute_tool, hmem, callToolFunction, hbind, himpl]

/-- C7 witness: a tool body that raises is converted to the error string
(list_files with valid empty arguments and a raising implementation), and
the same dispatch call is an ok value. -/
theorem claim7_witness :
    (∃ s, execute_tool implBoom "list_files" (.obj []) = .ok s) ∧
    execute_tool implBoom "list_files" (.obj []) =
      .ok ("Error executing tool " ++ squote "list_files" ++ ": " ++ "boom") := by
  have h := claim7_execute_tool_no_raise implBoom "list_files" (.obj [])
  exact ⟨h.1, h.2.2.2.1 [] "boom" (by decide) rfl (by decide) rfl⟩

/-- C8: whenever the installed permission gate denies the operation, the
tools write_file and edit_file return the permission-denied text for the
path and leave the filesystem exactly as it was: the gate is consulted
before any mutation. -/
theorem claim8_permission_denial_no_mutation (g : PermGate) (fs : FS)
    (filepath content old_text new_text : String) :
    (g.request "write_file" (some filepath) = false →
      write_file (some g) fs filepath content =
        ("Permission denied: Cannot write to " ++ squote filepath, fs)) ∧
    (g.request "edit_file" (some filepath) = false →
      edit_file (some g) fs filepath old_text new_text =
        ("Permission denied: Cannot edit " ++ squote filepath, fs)) := by
  constructor
  · intro h
    simp [write_file, h]
  · intro h
    simp [edit_file, h]

/-- C8 witness: a denying gate on a one-file filesystem: both tools return
the permission-denied text with that filesystem unchanged. -/
theorem claim8_witness :
    write_file (some denyGate) fsC10 "a.txt" "data" =
      ("Permission denied: Cannot write to " ++ squote "a.txt", fsC10) ∧
    edit_file (some denyGate) fsC10 "m.py" "hello" "bye" =
      ("Permission denied: Cannot edit " ++ squote "m.py", fsC10) := by
  have h := claim8_permission_denial_no_mutation denyGate fsC10 "a.txt" "data" "x" "y"
  have h2 := claim8_permission_denial_no_mutation denyGate fsC10 "m.py" "data" "hello" "bye"
  exact ⟨h.1 rfl, h2.2 rfl⟩

/-- C9: when the planner's single model call or the parsing of its response
fails for any reason — the transport raised, the content was None (model
refusal shape that makes .strip() raise), or json.loads rejected the
extracted text — create_plan returns the one-element plan whose sole
subtask is the original task text verbatim with status pending. create_plan
itself is total: the except branch means it never raises. -/
theorem claim9_planner_fallback (loads : String → PyResult (List PyValue))
    (task : String) :
    (∀ m, create_plan loads (.transportError m) task =
      [⟨1, .str task, "pending"⟩]) ∧
    (create_plan loads (.content none) task = [⟨1, .str task, "pending"⟩]) ∧
    (∀ t e, loads (extract_json_text t) = .raised e →
      create_plan loads (.content (some t)) task = [⟨1, .str task, "pending"⟩]) := by
  refine ⟨fun m => rfl, rfl, ?_⟩
  intro t e h
  simp [create_plan, planParse, h]

/-- C9 witness: the fallback evaluated for a failing loads oracle on a
concrete refusal text. -/
theorem claim9_witness :
    create_plan loadsFail (.content (some "I cannot split that task.")) "build a parser tool" =
      [⟨1, .str "build a parser tool", "pending"⟩] :=
  (claim9_planner_fallback loadsFail "build a parser tool").2.2
    "I cannot split that task." (.otherError "Expecting value: line 1 column 1") rfl

/-- C10: with no permission manager installed (the module-level reference
still None), write_file mutates the filesystem unconditionally and returns
the success message — no permission check, no denial, no prompt — and
edit_file likewise rewrites an existing file whose content holds old_text. -/
theorem claim10_missing_gate_bypass (fs : FS) (filepath content old_text new_text : String) :
    write_file none fs filepath content =
      ("Wrote " ++ toString content.length ++ " characters to " ++ squote filepath,
        fsWrite fs filepath content) ∧
    (∀ current, fsRead fs filepath = some current → pyIn old_text current = true →
      edit_file none fs filepath old_text new_text =
        ("Successfully edited " ++ squote filepath,
          fsWrite fs filepath (pyReplace current old_text new_text))) := by
  constructor
  · rfl
  · intro current hread hin
    simp [edit_file, editFileBody, hread, hin]

/-- C10 witness: silent write and edit on the one-file filesystem with no
gate installed. -/
theorem claim10_witness :
    write_file none fsC10 "n.txt" "abc" =
      ("Wrote " ++ toString "abc".length ++ " characters to " ++ squote "n.txt",
        fsWrite fsC10 "n.txt" "abc") ∧
    edit_file none fsC10 "m.py" "world" "there" =
      ("Successfully edited " ++ squote "m.py",
        fsWrite fsC10 "m.py" (pyReplace "hello world" "world" "there")) := by
  have h := claim10_missing_gate_bypass fsC10 "n.txt" "abc" "world" "there"
  have h2 := claim10_missing_gate_bypass fsC10 "m.py" "abc" "world" "there"
  exact ⟨h.1, h2.2 "hello world" (by decide) (by decide)⟩

/-! Helper lemmas about the ReAct loop. -/

theorem reactLoop_zero (impl : ToolImpl) (llm : Nat → ModelResponse) (st : LoopState) :
    reactLoop impl llm 0 st = .ok (some exhaustionMessage, st) := rfl

theorem reactLoop_succ_toolFree (impl : ToolImpl) {llm : Nat → ModelResponse}
    (fuel : Nat) {st : LoopState} (h : (llm st.modelCalls).tool_calls = []) :
    reactLoop impl llm (fuel + 1) st =
      .ok ((llm st.modelCalls).content,
        ⟨compactIfNeeded st.messages, st.modelCalls + 1, st.dispatches⟩) := by
  simp only [reactLoop, h]

theorem reactLoop_succ_tool (impl : ToolImpl) {llm : Nat → ModelResponse}
    (fuel : Nat) {st : LoopState} {tc : ToolCall} {rest : List ToolCall}
    {largs : PyLoaded} {s : String}
    (h : (llm st.modelCalls).tool_calls = tc :: rest)
    (hl : json_loads tc.function.arguments = .ok largs)
    (he : execute_tool impl tc.function.name largs = .ok s) :
    reactLoop impl llm (fuel + 1) st =
      reactLoop impl llm fuel
        ⟨compactIfNeeded st.messages ++ [assistantToolMsg tc, toolResultMsg s tc.id],
         st.modelCalls + 1, st.dispatches + 1⟩ := by
  simp only [reactLoop, h, hl, he]

theorem reactLoop_runs (impl : ToolImpl) (llm : Nat → ModelResponse) :
    ∀ (j fuel : Nat) (st : LoopState), j < fuel →
      (∀ i, i < j → dispatchable (llm (st.modelCalls + i)) = true) →
      (llm (st.modelCalls + j)).tool_calls = [] →
      ∃ st', reactLoop impl llm fuel st = .ok ((llm (st.modelCalls + j)).content, st') ∧
        st'.modelCalls = st.modelCalls + j + 1 ∧ st'.dispatches = st.dispatches + j := by
  intro j
  induction j with
  | zero =>
    intro fuel st hj hdisp hfree
    obtain ⟨f, rfl⟩ : ∃ f, fuel = f + 1 := ⟨fuel - 1, by omega⟩
    rw [Nat.add_zero] at hfree ⊢
    exact ⟨_, reactLoop_succ_toolFree impl f hfree, rfl, rfl⟩
  | succ j ih =>
    intro fuel st hj hdisp hfree
    obtain ⟨f, rfl⟩ : ∃ f, fuel = f + 1 := ⟨fuel - 1, by omega⟩
    have hd0 : dispatchable (llm st.modelCalls) = true := by
      have := hdisp 0 (by omega)
      rwa [Nat.add_zero] at this
    cases htc : (llm st.modelCalls).tool_calls with
    | nil =>
      unfold dispatchable at hd0
      rw [htc] at hd0
      simp at hd0
    | cons tc rest =>
      have hlOk : loadsOk tc.function.arguments = true := by
        unfold dispatchable at hd0
        rw [htc] at hd0
        exact hd0
      obtain ⟨v, hv⟩ := json_loads_ok hlOk
      obtain ⟨s, hs⟩ := execute_tool_isOk impl tc.function.name v
      rw [reactLoop_succ_tool impl f htc hv hs]
      have hdisp' : ∀ i, i < j →
          dispatchable (llm (st.modelCalls + 1 + i)) = true := by
        intro i hi
        have harith : st.modelCalls + 1 + i = st.modelCalls + (i + 1) := by omega
        rw [harith]
        exact hdisp (i + 1) (by omega)
      have hfree' : (llm (st.modelCalls + 1 + j)).tool_calls = [] := by
        have harith : st.modelCalls + 1 + j = st.modelCalls + (j + 1) := by omega
        rw [harith]
        exact hfree
      obtain ⟨st', heq, hm, hd⟩ := ih f
        ⟨compactIfNeeded st.messages ++ [assistantToolMsg tc, toolResultMsg s tc.id],
         st.modelCalls + 1, st.dispatches + 1⟩ (by omega) hdisp' hfree'
      dsimp only at hm hd
      refine ⟨st', ?_, by omega, by omega⟩
      rw [heq]
      have harith : st.modelCalls + 1 + j = st.modelCalls + (j + 1) := by omega
      rw [harith]

theorem reactLoop_exhausts (impl : ToolImpl) (llm : Nat → ModelResponse) :
    ∀ (fuel : Nat) (st : LoopState),
      (∀ i, i < fuel → dispatchable (llm (st.modelCalls + i)) = true) →
      ∃ st', reactLoop impl llm fuel st = .ok (some exhaustionMessage, st') ∧
        st'.modelCalls = st.modelCalls + fuel ∧ st'.dispatches = st.dispatches + fuel := by
  intro fuel
  induction fuel with
  | zero => intro st _; exact ⟨st, rfl, rfl, rfl⟩
  | succ f ih =>
    intro st hdisp
    have hd0 : dispatchable (llm st.modelCalls) = true := by
      have := hdisp 0 (by omega)
      rwa [Nat.add_zero] at this
    cases htc : (llm st.modelCalls).tool_calls with
    | nil =>
      unfold dispatchable at hd0
      rw [htc] at hd0
      simp at hd0
    | cons tc rest =>
      have hlOk : loadsOk tc.function.arguments = true := by
        unfold dispatchable at hd0
        rw [htc] at hd0
        exact hd0
      obtain ⟨v, hv⟩ := json_loads_ok hlOk
      obtain ⟨s, hs⟩ := execute_tool_isOk impl tc.function.name v
      rw [reactLoop_succ_tool impl f htc hv hs]
      have hdisp' : ∀ i, i < f →
          dispatchable (llm (st.modelCalls + 1 + i)) = true := by
        intro i hi
        have harith : st.modelCalls + 1 + i = st.modelCalls + (i + 1) := by omega
        rw [harith]
        exact hdisp (i + 1) (by omega)
      obtain ⟨st', heq, hm, hd⟩ := ih
        ⟨compactIfNeeded st.messages ++ [assistantToolMsg tc, toolResultMsg s tc.id],
         st.modelCalls + 1, st.dispatches + 1⟩ hdisp'
      dsimp only at hm hd
      exact ⟨st', heq, by omega, by omega⟩

/-- C1 (amended): for a scripted model whose dispatched tool-call payloads
are valid JSON: if iterations 1..k-1 each return a response carrying a tool
call and iteration k is tool-free (1 ≤ k ≤ max_iterations), then
_execute_subtask returns the content of the tool-free response after
exactly k model calls and k-1 tool dispatches; and if every one of the
first max_iterations responses carries a (JSON-parseable) tool call,
_execute_subtask returns the fixed exhaustion message after exactly
max_iterations model calls. The JSON provisos are forced: a tool call
whose payload json.loads rejects raises out of the loop instead
(see the counterexample). -/
theorem claim1_agent_loop_termination (impl : ToolImpl) (llm : Nat → ModelResponse)
    (max_iterations k : Nat) (task : String) (hk : 1 ≤ k) (hle : k ≤ max_iterations) :
    ((∀ i, i + 1 < k → dispatchable (llm i) = true) → (llm (k - 1)).tool_calls = [] →
      ∃ st, execute_subtask impl llm max_iterations task =
          .ok ((llm (k - 1)).content, st) ∧
        st.modelCalls = k ∧ st.dispatches = k - 1) ∧
    ((∀ i, i < max_iterations → dispatchable (llm i) = true) →
      ∃ st, execute_subtask impl llm max_iterations task =
          .ok (some exhaustionMessage, st) ∧
        st.modelCalls = max_iterations ∧ st.dispatches = max_iterations) := by
  constructor
  · intro hdisp hfree
    have h := reactLoop_runs impl llm (k - 1) max_iterations
      ⟨initialMessages task, 0, 0⟩ (by omega)
      (fun i hi => by
        have : (0 : Nat) + i = i := by omega
        rw [this]
        exact hdisp i (by omega))
      (by
        have : (0 : Nat) + (k - 1) = k - 1 := by omega
        rw [this]
        exact hfree)
    obtain ⟨st', heq, hm, hd⟩ := h
    dsimp only at hm hd
    refine ⟨st', ?_, by omega, by omega⟩
    unfold execute_subtask
    rw [heq]
    have : (0 : Nat) + (k - 1) = k - 1 := by omega
    rw [this]
  · intro hdisp
    have h := reactLoop_exhausts impl llm max_iterations
      ⟨initialMessages task, 0, 0⟩
      (fun i hi => by
        have : (0 : Nat) + i = i := by omega
        rw [this]
        exact hdisp i hi)
    obtain ⟨st', heq, hm, hd⟩ := h
    dsimp only at hm hd
    exact ⟨st', heq, by omega, by omega⟩

/-- C1 witness: a scripted list_files call then a tool-free answer, with
max_iterations = 3: the loop returns the answer after 2 model calls and
1 dispatch. -/
theorem claim1_witness :
    ∃ st, execute_subtask implZero llmC1w 3 "T1" = .ok (some "All done.", st) ∧
      st.modelCalls = 2 ∧ st.dispatches = 1 :=
  (claim1_agent_loop_termination implZero llmC1w 3 2 "T1" (by omega) (by omega)).1
    (fun i hi => by
      have h0 : i = 0 := by omega
      subst h0
      decide) (by decide)

/-- C1, claim as frozen, refuted: a scripted model that returns a tool call
on iteration 1 and a tool-free response on iteration 2 (k = 2 ≤
max_iterations = 2), yet whose first payload is not valid JSON: instead of
returning the tool-free content after 2 model calls, _execute_subtask
raises json.JSONDecodeError out of the loop on iteration 1. -/
theorem claim1_counterexample :
    (llmC1bad 0).tool_calls ≠ [] ∧ (llmC1bad 1).tool_calls = [] ∧
    execute_subtask implZero llmC1bad 2 "T" =
      .raised (.otherError ("Expecting value: " ++ "not valid json")) ∧
    ¬ ∃ st, execute_subtask implZero llmC1bad 2 "T" =
        .ok ((llmC1bad 1).content, st) := by
  refine ⟨by decide, rfl, rfl, ?_⟩
  rintro ⟨st, h⟩
  rw [show execute_subtask implZero llmC1bad 2 "T" =
      .raised (.otherError ("Expecting value: " ++ "not valid json")) from rfl] at h
  cases h

/-- C2 (amended): a first tool call whose payload is valid JSON but does
not bind to the tool's declared parameters — whether the loaded value is
not a mapping at all, or an object missing a required argument or carrying
an unexpected one — is a dispatch-time error, not a process failure: the
loop converts it to the invalid-arguments observation string, appends the
assistant message and the tool observation to the conversation, and
continues into the next iteration with the remaining iteration budget.
(A payload that is not valid JSON instead raises out of the loop — see the
counterexample refuting the frozen claim.) -/
theorem claim2_malformed_args_observation (impl : ToolImpl) (llm : Nat → ModelResponse)
    (max_iterations : Nat) (task : String) (tc : ToolCall) (rest : List ToolCall)
    (largs : PyLoaded) (m : String)
    (hit : 1 ≤ max_iterations)
    (h0 : (llm 0).tool_calls = tc :: rest)
    (hargs : tc.function.arguments = .wellFormed largs)
    (hmem : tc.function.name ∈ toolNames)
    (hbind : bindFailure tc.function.name largs = some m) :
    execute_subtask impl llm max_iterations task =
      reactLoop impl llm (max_iterations - 1)
        ⟨compactIfNeeded (initialMessages task) ++
          [assistantToolMsg tc,
           toolResultMsg ("Error: Invalid arguments for tool " ++ squote tc.function.name ++
             ": " ++ m) tc.id],
         1, 1⟩ := by
  obtain ⟨f, rfl⟩ : ∃ f, max_iterations = f + 1 := ⟨max_iterations - 1, by omega⟩
  have hl : json_loads tc.function.arguments = .ok largs := by
    rw [hargs]; rfl
  have hcall : callToolFunction impl tc.function.name largs = .raised (.typeError m) := by
    cases largs with
    | other r =>
      simp only [bindFailure] at hbind
      injection hbind with hbind
      subst hbind
      rfl
    | obj fields =>
      simp only [bindFailure] at hbind
      cases hbc : bindCheck (toolSignature tc.function.name) fields with
      | some err =>
        rw [hbc] at hbind
        injection hbind with hbind
        subst hbind
        simp [callToolFunction, hbc]
      | none => rw [hbc] at hbind; cases hbind
  have he : execute_tool impl tc.function.name largs =
      .ok ("Error: Invalid arguments for tool " ++ squote tc.function.name ++ ": " ++ m) := by
    simp [execute_tool, hmem, hcall]
  unfold execute_subtask
  rw [reactLoop_succ_tool impl f h0 hl he]
  simp

/-- C2 witness: with max_iterations = 2, a write_file call missing its
required content argument and a read_file call whose payload is a JSON
array (not a mapping) each become the invalid-arguments observation, and
the loop proceeds into iteration 2. -/
theorem claim2_witness :
    (execute_subtask implZero llmC2w 2 "T3" =
      reactLoop implZero llmC2w 1
        ⟨compactIfNeeded (initialMessages "T3") ++
          [assistantToolMsg tcC2w,
           toolResultMsg ("Error: Invalid arguments for tool " ++ squote tcC2w.function.name ++
             ": " ++ (tcC2w.function.name ++ "() " ++
               ("missing 1 required positional argument: " ++ squote "content"))) tcC2w.id],
         1, 1⟩) ∧
    (execute_subtask implZero llmC2arr 2 "T4" =
      reactLoop implZero llmC2arr 1
        ⟨compactIfNeeded (initialMessages "T4") ++
          [assistantToolMsg tcC2arr,
           toolResultMsg ("Error: Invalid arguments for tool " ++ squote tcC2arr.function.name ++
             ": " ++ ("argument after ** must be a mapping, not " ++ "list")) tcC2arr.id],
         1, 1⟩) :=
  ⟨claim2_malformed_args_observation implZero llmC2w 2 "T3" tcC2w []
      (.obj [("filepath", .str "a.txt")])
      ("write_file" ++ "() " ++ ("missing 1 required positional argument: " ++ squote "content"))
      (by omega) rfl rfl (by decide) (by decide),
   claim2_malformed_args_observation implZero llmC2arr 2 "T4" tcC2arr []
      (.other "list")
      ("argument after ** must be a mapping, not " ++ "list")
      (by omega) rfl rfl (by decide) (by decide)⟩

/-- C2, claim as frozen, refuted: a first tool call whose argument payload
is not valid JSON is not converted to an observation — json.loads raises on
agent.py line 199, outside any try block, so the process fails instead of
continuing. -/
theorem claim2_counterexample :
    (llmC2bad 0).tool_calls ≠ [] ∧
    execute_subtask implZero llmC2bad 2 "T2" =
      .raised (.otherError ("Expecting value: " ++ "oops not json")) := by
  exact ⟨by decide, rfl⟩

end SimpleCoder
